import Mathlib

/-!
Shallow embedding of the SVG-Gen repository (src/App.tsx: the App component,
the gemini service layer, the InputSection form handler, and the shared
types module) together with theorems checking the specification's claims.
Strings are modelled as Lean `String`/`List Char`; JavaScript string
operations (`match` with the /<svg[sS]*?<\/svg>/i pattern, `replace` with
a global flag, `trim`, `includes`, `toLowerCase`, `toUpperCase`) are
re-implemented with the same semantics on character lists.
-/

set_option maxRecDepth 40000

namespace SvgGen

/-- JS `String.prototype.toLowerCase` restricted to the ASCII range used by
the source strings. -/
def toLowerStr (s : String) : String := String.mk (s.data.map Char.toLower)

/-- JS `String.prototype.toUpperCase` restricted to the ASCII range used by
the source strings. -/
def toUpperStr (s : String) : String := String.mk (s.data.map Char.toUpper)

/-- Exact prefix test on character lists. -/
def leadsWith : List Char → List Char → Bool
  | [], _ => true
  | _ :: _, [] => false
  | p :: ps, c :: cs => (p == c) && leadsWith ps cs

/-- Case-insensitive prefix test: the pattern is given in lowercase and each
text character is lowered before comparison, matching the /i regex flag. -/
def leadsWithCI : List Char → List Char → Bool
  | [], _ => true
  | _ :: _, [] => false
  | p :: ps, c :: cs => (p == c.toLower) && leadsWithCI ps cs

/-- JS `String.prototype.includes` on character lists. -/
def containsSubL (pat : List Char) : List Char → Bool
  | [] => pat.isEmpty
  | c :: rest => leadsWith pat (c :: rest) || containsSubL pat rest

/-- JS `String.prototype.includes`. -/
def containsSub (pat s : String) : Bool := containsSubL pat.data s.data

/-- Whitespace class used by JS `String.prototype.trim` (ASCII part). -/
def isJsWS (c : Char) : Bool :=
  c == ' ' || c == '\t' || c == '\n' || c == '\r' || c == '\x0b' || c == '\x0c'

/-- JS `String.prototype.trim`. -/
def jsTrim (s : String) : String :=
  String.mk (((s.data.dropWhile isJsWS).reverse.dropWhile isJsWS).reverse)

/-- Helper for the global literal replace: `k` counts characters still to be
skipped because they belong to a match already recognised; at `k = 0` the
scan looks for the next occurrence of `pat` and, on a match, deletes the
head and schedules the remaining `pat.length - 1` characters for deletion. -/
def replaceAllAux (pat : List Char) : ℕ → List Char → List Char
  | _, [] => []
  | k + 1, _ :: rest => replaceAllAux pat k rest
  | 0, c :: rest =>
    if pat ≠ [] ∧ leadsWith pat (c :: rest) = true then
      replaceAllAux pat (pat.length - 1) rest
    else
      c :: replaceAllAux pat 0 rest

/-- JS `String.prototype.replace` with a global literal pattern: scan left to
right, delete every non-overlapping occurrence of `pat`. -/
def replaceAllL (pat l : List Char) : List Char := replaceAllAux pat 0 l

/-- JS `String.prototype.replace` with a global literal pattern. -/
def replaceAll (pat s : String) : String := String.mk (replaceAllL pat.data s.data)

/-! ### The SVG extraction of `generateSvgFromPrompt` (src/App.tsx 317-330)

`rawText.match(/<svg[sS]*?<\/svg>/i)` scans start positions left to right;
at the first position where `<svg` matches case-insensitively and some later
`</svg>` exists, the lazy quantifier picks the nearest closing tag. -/

/-- The literal `<svg` of the extraction pattern, lowercased. -/
def openTagL : List Char := ['<', 's', 'v', 'g']

/-- The literal `</svg>` of the extraction pattern, lowercased. -/
def closeTagL : List Char := ['<', '/', 's', 'v', 'g', '>']

/-- Helper for the lazy `[sS]*?<\/svg>` part: return the prefix of `l` up to
and including the first case-insensitive occurrence of `</svg>`. -/
def scanClose : List Char → Option (List Char)
  | [] => none
  | c :: rest =>
    if leadsWithCI closeTagL (c :: rest) then some (List.take 6 (c :: rest))
    else (scanClose rest).map (fun t => c :: t)

/-- The whole regex match `rawText.match(/<svg[sS]*?<\/svg>/i)`: first start
position wins, and for that start the nearest close tag wins; the matched
span is returned verbatim (original characters, not lowercased). -/
def svgMatchL : List Char → Option (List Char)
  | [] => none
  | c :: rest =>
    if leadsWithCI openTagL (c :: rest) then
      match scanClose (rest.drop 3) with
      | some t => some (List.take 4 (c :: rest) ++ t)
      | none => svgMatchL rest
    else svgMatchL rest

/-- String-level wrapper for the regex match. -/
def svgMatch (s : String) : Option String := (svgMatchL s.data).map String.mk

/-- The fallback cleanup of src/App.tsx line 327: strip the three fence
variants in code order and trim. -/
def stripFences (s : String) : String :=
  jsTrim (replaceAll "\x60\x60\x60" (replaceAll "\x60\x60\x60svg" (replaceAll "\x60\x60\x60xml" s)))

/-- The two-step extraction of src/App.tsx lines 320-330: regex match first,
then the fence-stripping fallback guarded by the two `includes` checks. -/
def extractSvg (raw : String) : Option String :=
  match svgMatchL raw.data with
  | some m => some (String.mk m)
  | none =>
    let cleaned := stripFences raw
    if containsSub "<svg" cleaned && containsSub "</svg>" cleaned then some cleaned
    else none

/-! ### Error model (src/App.tsx: the thrown error objects of the service
layer, carrying `message`, `details` and an optional `suggestion`). -/

/-- An error object as thrown or rethrown by `generateSvgFromPrompt`. -/
structure GenError where
  message : String
  details : String
  suggestion : Option String
deriving DecidableEq

/-- The `noSvgError` built at src/App.tsx lines 333-336 when neither
extraction step finds SVG markup. -/
def noSvgError : GenError :=
  { message := "Generation Format Error"
    details := "The model generated a response but no valid SVG code was found."
    suggestion := some "Try simplifying your prompt or selecting the \x27Flat\x27 style which is more consistent." }

/-- The heuristic classification of src/App.tsx lines 344-369: ordered rules
over the lowercased message, first match wins. -/
def classifyServiceError (msg : String) : GenError :=
  let m := toLowerStr msg
  if containsSub "safety" m || containsSub "blocked" m then
    { message := "Content Flagged"
      details := "The request triggered the AI\x27s safety filters."
      suggestion := some "Try rephrasing your prompt to be more abstract or removing sensitive keywords." }
  else if containsSub "429" m || containsSub "quota" m || containsSub "exhausted" m then
    { message := "System Overloaded"
      details := "API quota exceeded or system is currently busy."
      suggestion := some "Please wait a minute before trying again." }
  else if containsSub "400" m || containsSub "invalid argument" m then
    { message := "Invalid Request"
      details := "The model rejected the input, possibly due to image format or size."
      suggestion := some "Try using a smaller image (under 4MB) or a standard format like JPG/PNG." }
  else if containsSub "apikey" m || containsSub "403" m then
    { message := "Authentication Error"
      details := "There is an issue with the API key."
      suggestion := some "Please check your environment configuration." }
  else
    { message := "Connection Error"
      details := if msg = "" then "An unexpected error occurred." else msg
      suggestion := some "Check your internet connection or try again later." }

/-- The catch handler of src/App.tsx lines 338-371: an error that already
carries a suggestion is rethrown unchanged, otherwise it is classified from
its lowercased message. -/
def handleCatch (e : GenError) : GenError :=
  if e.suggestion.isSome then e else classifyServiceError e.message

/-- The response-interpretation path of `generateSvgFromPrompt`: extraction
on success, otherwise the `noSvgError` thrown inside the try block and
routed through the same catch handler before reaching the caller. -/
def interpret (raw : String) : Except GenError String :=
  match extractSvg raw with
  | some s => Except.ok s
  | none => Except.error (handleCatch noSvgError)

/-! ### Temperature and style instructions (src/App.tsx 134-246). -/

/-- `getTemperatureForStyle` (src/App.tsx 134-154), a switch on the style
name with a default of 0.4. -/
def getTemperatureForStyle (style : String) : ℚ :=
  if style = "Vector Trace" ∨ style = "Blueprint" ∨ style = "Pixel Art" ∨ style = "Isometric" then
    0.15
  else if style = "Flat" ∨ style = "Material" ∨ style = "Minimalist" ∨ style = "Low Poly" then
    0.3
  else if style = "Hand Drawn" ∨ style = "Gradient" ∨ style = "Cyberpunk" ∨ style = "Pop Art" then
    0.6
  else
    0.4

/-- The 14 style identifiers of the `STYLES` array (src/unnamed/part_000
lines 15-30), also the variants of the `SvgStyle` union type. -/
def STYLES : List String :=
  ["Vector Trace", "Flat", "Material", "Line Art", "Low Poly", "Minimalist", "Isometric",
   "Blueprint", "Cyberpunk", "Gradient", "Pixel Art", "Hand Drawn", "Pop Art", "Paper Cutout"]

/-- The `instructions` record literal inside `getStyleInstructions`
(src/App.tsx 160-172): an 11-entry map from style name to Goal text;
`none` models a missing key. -/
def instructionFor (style : String) : Option String :=
  if style = "Vector Trace" then
    some "Goal: PHOTOREALISTIC REPRODUCTION. Trace the input image exactly. Use as many paths and gradients as necessary to capture the full detail, lighting, and shading of the original image. Do not simplify or stylize unless asked."
  else if style = "Flat" then
    some "Goal: Clean, modern flat design. No gradients, drop shadows, or textures. Use solid colors and geometric precision."
  else if style = "Material" then
    some "Goal: Google Material Design. Use subtle depth, card-like layers, slight drop shadows (simulated with semi-transparent paths), and vibrant standard colors."
  else if style = "Line Art" then
    some "Goal: Monoline vector illustration. Use only strokes (stroke-width=\"2\" or similar), no fill (or white fill). Focus on the outline and essential details."
  else if style = "Blueprint" then
    some "Goal: Technical architectural blueprint. Background color must be #0f4c81 (Classic Blue) or #0022AA. All lines should be white. Use dashed lines for hidden details. Add measurement markers if applicable."
  else if style = "Cyberpunk" then
    some "Goal: Futuristic, high-tech aesthetic. Use a dark background (#000 or #111). Neon colors: Cyan (#00f3ff), Magenta (#ff00ff), Lime Green. Use glitch effects (jagged paths) and glowing elements."
  else if style = "Low Poly" then
    some "Goal: Low Polygon Art. Construct the image entirely out of non-overlapping triangles. No curves. Use flat shading for each triangle to create a faceted 3D effect."
  else if style = "Isometric" then
    some "Goal: 30-degree isometric projection. Create a pseudo-3D look. maintain consistent parallel lines. clean geometric structures."
  else if style = "Pixel Art" then
    some "Goal: 8-bit or 16-bit retro style. Use small rect elements to simulate pixels. Keep all \"pixels\" aligned to a strict grid."
  else if style = "Pop Art" then
    some "Goal: Warhol/Lichtenstein style. Bold black outlines, high contrast, Ben-Day dots (simulated with pattern fills if possible, or simple dots), and vibrant primary colors."
  else if style = "Paper Cutout" then
    some "Goal: Layered paper craft effect. Use shapes with slightly offset semi-transparent black duplicates underneath to simulate drop shadows and depth between layers."
  else none

/-- The generic fallback rule `instructions[style] || 'Goal: High quality
vector art.'` (src/App.tsx 174). -/
def genericRule : String := "Goal: High quality vector art."

/-- `instructions[style] || genericRule`. -/
def baseRule (style : String) : String := (instructionFor style).getD genericRule

/-! Trace settings (src/unnamed/part_001 lines 48-60). -/

inductive TraceComplexity | Low | Medium | High
deriving DecidableEq

inductive TraceColors | Monochrome | Limited | Full
deriving DecidableEq

inductive TraceStrokeWeight | Thin | Standard | Thick
deriving DecidableEq

inductive TraceLineCap | Butt | Round | Square
deriving DecidableEq

inductive TraceLineFill | None | Solid
deriving DecidableEq

structure TraceSettings where
  complexity : TraceComplexity
  colors : TraceColors
  strokeWeight : TraceStrokeWeight
  lineCap : TraceLineCap
  lineFill : TraceLineFill
deriving DecidableEq

/-- Complexity switch of src/App.tsx 183-194 (Medium and the default case
coincide). -/
def complexityDirective : TraceComplexity → String
  | .Low => "\n- SIMPLIFY PATHS: Use smooth Bezier curves with minimal nodes. Remove small details and noise. Abstract shapes into clean geometry."
  | .High => "\n- HIGH FIDELITY: Capture fine details, textures, and small elements. Use precise paths. Do not simplify."
  | .Medium => "\n- BALANCED DETAIL: Standard vectorization. Clean up noise but keep main features distinct."

/-- Color switch of src/App.tsx 197-208. -/
def colorsDirective : TraceColors → String
  | .Monochrome => "\n- MONOCHROME: Use ONLY black and white (or foreground/background). No grayscale, no gradients."
  | .Limited => "\n- LIMITED PALETTE: Use a maximum of 16 distinct colors. Group similar shades (quantization). Solid fills only, minimize gradients."
  | .Full => "\n- FULL COLOR: Use full color spectrum. Use gradients and complex shading if necessary to match the original."

/-- Fill rule of src/App.tsx 213-217. -/
def fillDirective : TraceLineFill → String
  | .Solid => "\n- FILL STYLE: Solid Fill. Fill closed shapes with the same color as the outline (or black). Do not use fill=\x27none\x27. Create solid silhouettes or filled illustrations."
  | .None => "\n- FILL STYLE: No Fill (Stroke Only). Ensure \x60fill=\"none\"\x60 for all paths. Rely entirely on strokes to define the image."

/-- Stroke-weight switch of src/App.tsx 222-235 (the enum value is always a
non-empty string, so the truthiness guard on line 222 always passes). -/
def strokeDirective : TraceStrokeWeight → String
  | .Thin => "\n- STROKE WEIGHT: Thin lines (0.5px - 1px) where strokes are used."
  | .Thick => "\n- STROKE WEIGHT: Thick, bold lines (3px - 5px) where strokes are used."
  | .Standard => "\n- STROKE WEIGHT: Standard line width (1px - 2px) where strokes are used."

/-- Name of a line-cap value as the TS string literal. -/
def capName : TraceLineCap → String
  | .Butt => "Butt"
  | .Round => "Round"
  | .Square => "Square"

/-- Line-cap rule of src/App.tsx 238-240 (the enum value is always a
non-empty string, so the truthiness guard always passes). -/
def capDirective (c : TraceLineCap) : String :=
  "\n- STROKE LINECAP: Ensure any stroked paths use \x27stroke-linecap=\"" ++ toLowerStr (capName c) ++ "\"\x27."

/-- `getStyleInstructions` (src/App.tsx 159-246): base rule plus, for the
two advanced styles with settings supplied, the accumulated settings
refinement in source order. -/
def getStyleInstructions (style : String) (traceSettings : Option TraceSettings) : String :=
  let rule := baseRule style
  match traceSettings with
  | none => rule
  | some ts =>
    if style = "Vector Trace" ∨ style = "Line Art" then
      let r0 := "\n" ++ toUpperStr style ++ " SETTINGS:"
      let r1 := if style = "Vector Trace" then
          r0 ++ complexityDirective ts.complexity ++ colorsDirective ts.colors
        else r0
      let r2 := if style = "Line Art" then r1 ++ fillDirective ts.lineFill else r1
      let r3 := r2 ++ strokeDirective ts.strokeWeight
      let r4 := r3 ++ capDirective ts.lineCap
      rule ++ r4
    else rule

/-- Modelled from the spec (§4.2, §8): the settings block as the spec
describes it — header then the fixed order complexity, colors, fill,
stroke, cap, where a field not applicable to the current style contributes
no text at all. Used to compare against `getStyleInstructions`. -/
def settingsBlockSpec (style : String) (ts : TraceSettings) : String :=
  "\n" ++ toUpperStr style ++ " SETTINGS:"
    ++ (if style = "Vector Trace" then complexityDirective ts.complexity else "")
    ++ (if style = "Vector Trace" then colorsDirective ts.colors else "")
    ++ (if style = "Line Art" then fillDirective ts.lineFill else "")
    ++ strokeDirective ts.strokeWeight
    ++ capDirective ts.lineCap

/-! ### User-instruction templates (src/App.tsx 280-304). -/

/-- The user-instruction assembly of `generateSvgFromPrompt`: the
image-attached template (with the `prompt || 'Convert to SVG'` fallback and
the Vector-Trace special sentence) when an image part is present, otherwise
the text-only template. -/
def buildUserPrompt (prompt : String) (hasImage : Bool) (style : String) : String :=
  if hasImage then
    "\n      Reference Image provided. \n      Task: Convert this image into an SVG following the \""
      ++ style
      ++ "\" style.\n      \n      Specific details from user: \""
      ++ (if prompt = "" then "Convert to SVG" else prompt)
      ++ "\"\n      \n      "
      ++ (if style = "Vector Trace" then
            "CRITICAL: Trace the image according to the TRACE CONFIGURATION in system instructions."
          else
            "Interpret the image content but strictly apply the requested artistic style.")
      ++ "\n      "
  else
    "\n      Create an SVG artwork of: \"" ++ prompt ++ "\".\n      Style: " ++ style ++ "\n      "

/-- Modelled from the spec (§4.2 user instruction assembly): the
image-attached template with the caller-supplied raw prompt embedded
verbatim, no substitution. -/
def verbatimImagePrompt (prompt style : String) : String :=
  "\n      Reference Image provided. \n      Task: Convert this image into an SVG following the \""
    ++ style
    ++ "\" style.\n      \n      Specific details from user: \""
    ++ prompt
    ++ "\"\n      \n      "
    ++ (if style = "Vector Trace" then
          "CRITICAL: Trace the image according to the TRACE CONFIGURATION in system instructions."
        else
          "Interpret the image content but strictly apply the requested artistic style.")
    ++ "\n      "

/-- Modelled from the spec (§4.2 user instruction assembly): the text-only
template with the caller-supplied raw prompt embedded verbatim. -/
def verbatimTextPrompt (prompt style : String) : String :=
  "\n      Create an SVG artwork of: \"" ++ prompt ++ "\".\n      Style: " ++ style ++ "\n      "

/-! ### UI state machine (src/App.tsx 14-52, src/unnamed/part_000 104-109,
src/unnamed/part_001 6-30). -/

inductive GenerationStatus | IDLE | LOADING | SUCCESS | ERROR
deriving DecidableEq

/-- The `GeneratedSvg` interface of the types module. -/
structure GeneratedSvg where
  id : String
  content : String
  prompt : String
  timestamp : Nat
deriving DecidableEq

/-- The `ApiError` interface of the types module (details is always set by
`handleGenerate`, so it is modelled as a plain string). -/
structure ApiError where
  message : String
  details : String
  suggestion : Option String
deriving DecidableEq

/-- The `ImageData` interface of the types module. -/
structure ImageData where
  data : String
  mimeType : String
  previewUrl : String
deriving DecidableEq

/-- The App component's state triple: `status`, `currentSvg`, `error`. -/
structure AppState where
  status : GenerationStatus
  currentSvg : Option GeneratedSvg
  error : Option ApiError
deriving DecidableEq

/-- Initial state of the App component (useState initialisers). -/
def initialState : AppState :=
  { status := .IDLE, currentSvg := none, error := none }

/-- The synchronous head of `handleGenerate` (src/App.tsx 20-22):
setStatus(LOADING); setError(null); setCurrentSvg(null). -/
def beginGenerate (_ : AppState) : AppState :=
  { status := .LOADING, currentSvg := none, error := none }

/-- The success continuation of `handleGenerate` (src/App.tsx 42-43):
setCurrentSvg(newSvg); setStatus(SUCCESS). -/
def completeSuccess (s : AppState) (svg : GeneratedSvg) : AppState :=
  { s with currentSvg := some svg, status := .SUCCESS }

/-- The catch branch of `handleGenerate` (src/App.tsx 45-50):
setStatus(ERROR); setError(...). -/
def completeFailure (s : AppState) (e : ApiError) : AppState :=
  { s with status := .ERROR, error := some e }

/-- Reachable App states: a generation may begin in any state; a completion
(success or failure) resolves the in-flight request, which by the
single-in-flight guard of `handleSubmit` only exists while the status is
LOADING. -/
inductive Reachable : AppState → Prop
  | init : Reachable initialState
  | start (s : AppState) : Reachable s → Reachable (beginGenerate s)
  | succeed (s : AppState) (svg : GeneratedSvg) :
      Reachable s → s.status = GenerationStatus.LOADING → Reachable (completeSuccess s svg)
  | fail (s : AppState) (e : ApiError) :
      Reachable s → s.status = GenerationStatus.LOADING → Reachable (completeFailure s e)

/-- Argument tuple of an `onGenerate` invocation. -/
structure GenRequest where
  prompt : String
  image : Option ImageData
  style : String
  traceSettings : Option TraceSettings
deriving DecidableEq

/-- `handleSubmit` (src/unnamed/part_000 104-109): invoke `onGenerate` with
the trimmed prompt (and the trace settings only for the two advanced
styles) unless both prompt and image are empty or a request is in flight;
`none` models the no-op. -/
def handleSubmit (input : String) (image : Option ImageData) (style : String)
    (ts : TraceSettings) (status : GenerationStatus) : Option GenRequest :=
  if (jsTrim input ≠ "" ∨ image.isSome = true) ∧ status ≠ GenerationStatus.LOADING then
    some { prompt := jsTrim input, image := image, style := style
           traceSettings := if style = "Vector Trace" ∨ style = "Line Art" then some ts else none }
  else none

/-- A submit event against the current App state: either a no-op leaving the
state untouched, or exactly one `onGenerate` call whose synchronous head
moves the state to LOADING. -/
def submitEvent (input : String) (image : Option ImageData) (style : String)
    (ts : TraceSettings) (s : AppState) : AppState × Option GenRequest :=
  match handleSubmit input image style ts s.status with
  | some r => (beginGenerate s, some r)
  | none => (s, none)

/-- The `GeneratedSvg` construction of `handleGenerate` (src/App.tsx 35-40)
with the nondeterministic id and timestamp as parameters; the stored prompt
is `prompt || (image ? "Image to SVG Conversion" : "Generated SVG")`. -/
def mkGeneratedSvg (id svgContent : String) (prompt : String) (hasImage : Bool)
    (timestamp : Nat) : GeneratedSvg :=
  { id := id
    content := svgContent
    prompt := if prompt = "" then (if hasImage then "Image to SVG Conversion" else "Generated SVG")
              else prompt
    timestamp := timestamp }

/-! ### Characterisation of the regex match used by claim C1. -/

/-- A full pattern match of /<svg .. <\/svg>/i located at start `i` with the
closing tag at `j`: the open tag matches case-insensitively at `i`, the
close tag at `j`, and the close tag starts no earlier than the end of the
open tag. -/
def matchAt (l : List Char) (i j : ℕ) : Prop :=
  leadsWithCI openTagL (l.drop i) = true ∧
    leadsWithCI closeTagL (l.drop j) = true ∧ i + 4 ≤ j

instance (l : List Char) (i j : ℕ) : Decidable (matchAt l i j) := by
  unfold matchAt; infer_instance

lemma leadsWithCI_length {p l : List Char} (h : leadsWithCI p l = true) :
    p.length ≤ l.length := by
  induction p generalizing l with
  | nil => simp
  | cons x xs ih =>
    cases l with
    | nil => simp [leadsWithCI] at h
    | cons c cs =>
      simp only [leadsWithCI, Bool.and_eq_true] at h
      simpa using Nat.succ_le_succ (ih h.2)

lemma matchAt_close_bound {l : List Char} {i j : ℕ} (h : matchAt l i j) :
    j + 6 ≤ l.length := by
  have h6 : closeTagL.length ≤ (l.drop j).length := leadsWithCI_length h.2.1
  rw [List.length_drop] at h6
  have : closeTagL.length = 6 := by decide
  omega

lemma scanClose_eq_some (j : ℕ) :
    ∀ l : List Char, leadsWithCI closeTagL (l.drop j) = true →
      (∀ j' < j, leadsWithCI closeTagL (l.drop j') = false) →
      scanClose l = some (l.take (j + 6)) := by
  induction j with
  | zero =>
    intro l h _
    cases l with
    | nil => exact absurd h (by decide)
    | cons c cs =>
      rw [List.drop_zero] at h
      simp [scanClose, h]
  | succ j ih =>
    intro l h hmin
    cases l with
    | nil => rw [List.drop_nil] at h; exact absurd h (by decide)
    | cons c cs =>
      have h0 : leadsWithCI closeTagL (c :: cs) = false := by
        have := hmin 0 (Nat.succ_pos j); rwa [List.drop_zero] at this
      rw [List.drop_succ_cons] at h
      have hrec := ih cs h (fun j' hj' => by
        have := hmin (j' + 1) (Nat.succ_lt_succ hj')
        rwa [List.drop_succ_cons] at this)
      simp only [scanClose, h0, Bool.false_eq_true, if_false, hrec, Option.map_some']
      rw [show j + 1 + 6 = (j + 6) + 1 from by omega, List.take_succ_cons]

lemma scanClose_eq_none :
    ∀ l : List Char, (∀ j, leadsWithCI closeTagL (l.drop j) = false) →
      scanClose l = none := by
  intro l
  induction l with
  | nil => intro _; rfl
  | cons c cs ih =>
    intro h
    have h0 := h 0
    rw [List.drop_zero] at h0
    have hrec := ih (fun j => by have := h (j + 1); rwa [List.drop_succ_cons] at this)
    simp [scanClose, h0, hrec]

lemma matchAt_succ_cons {c : Char} {l : List Char} {i j : ℕ} :
    matchAt (c :: l) (i + 1) (j + 1) ↔ matchAt l i j := by
  unfold matchAt
  rw [List.drop_succ_cons, List.drop_succ_cons]
  constructor
  · rintro ⟨h1, h2, h3⟩; exact ⟨h1, h2, by omega⟩
  · rintro ⟨h1, h2, h3⟩; exact ⟨h1, h2, by omega⟩

lemma svgMatchL_first (i : ℕ) :
    ∀ (l : List Char) (j : ℕ), matchAt l i j →
      (∀ i' < i, ∀ j', ¬ matchAt l i' j') →
      (∀ j' < j, ¬ matchAt l i j') →
      svgMatchL l = some ((l.drop i).take (j + 6 - i)) := by
  induction i with
  | zero =>
    intro l j hm _ hminj
    obtain ⟨hopen, hclose, hij⟩ := hm
    rw [List.drop_zero] at hopen
    cases l with
    | nil => exact absurd hopen (by decide)
    | cons c cs =>
      have e34 : cs.drop 3 = (c :: cs).drop 4 := by
        rw [show (4 : ℕ) = 3 + 1 from rfl, List.drop_succ_cons]
      have hc4 : leadsWithCI closeTagL (((c :: cs).drop 4).drop (j - 4)) = true := by
        rw [List.drop_drop, show 4 + (j - 4) = j from by omega]
        exact hclose
      have hmin4 : ∀ k < j - 4, leadsWithCI closeTagL (((c :: cs).drop 4).drop k) = false := by
        intro k hk
        rw [List.drop_drop]
        cases hEq : leadsWithCI closeTagL ((c :: cs).drop (4 + k)) with
        | false => rfl
        | true =>
          exact absurd ⟨by rw [List.drop_zero]; exact hopen, hEq, by omega⟩
            (hminj (4 + k) (by omega))
      have hscan : scanClose (cs.drop 3) = some (((c :: cs).drop 4).take ((j - 4) + 6)) := by
        rw [e34]
        exact scanClose_eq_some (j - 4) _ hc4 hmin4
      simp only [svgMatchL, hopen, if_true, hscan]
      rw [List.drop_zero]
      congr 1
      rw [show j + 6 - 0 = 4 + ((j - 4) + 6) from by omega]
      conv_rhs => rw [List.take_add]
  | succ i ih =>
    intro l j hm hmini hminj
    have hlen : l ≠ [] := by
      rintro rfl
      rw [show matchAt ([] : List Char) (i + 1) j =
        (leadsWithCI openTagL (([] : List Char).drop (i + 1)) = true ∧
          leadsWithCI closeTagL (([] : List Char).drop j) = true ∧ i + 1 + 4 ≤ j) from rfl] at hm
      rw [List.drop_nil] at hm
      exact absurd hm.1 (by decide)
    obtain ⟨c, cs, rfl⟩ := List.exists_cons_of_ne_nil hlen
    obtain ⟨j0, rfl⟩ : ∃ j0, j = j0 + 1 := ⟨j - 1, by have := hm.2.2; omega⟩
    have hm' : matchAt cs i j0 := matchAt_succ_cons.mp hm
    have hmini' : ∀ i' < i, ∀ j', ¬ matchAt cs i' j' := fun i' hi' j' hc =>
      hmini (i' + 1) (by omega) (j' + 1) (matchAt_succ_cons.mpr hc)
    have hminj' : ∀ j' < j0, ¬ matchAt cs i j' := fun j' hj' hc =>
      hminj (j' + 1) (by omega) (matchAt_succ_cons.mpr hc)
    have hrec := ih cs j0 hm' hmini' hminj'
    have hgoal : (cs.drop i).take (j0 + 6 - i) =
        ((c :: cs).drop (i + 1)).take (j0 + 1 + 6 - (i + 1)) := by
      rw [List.drop_succ_cons]
      congr 1
      omega
    cases hOpen : leadsWithCI openTagL (c :: cs) with
    | false =>
      simp only [svgMatchL, hOpen, Bool.false_eq_true, if_false]
      rw [hrec, hgoal]
    | true =>
      have hnone : scanClose (cs.drop 3) = none := by
        apply scanClose_eq_none
        intro k
        cases hEq : leadsWithCI closeTagL ((cs.drop 3).drop k) with
        | false => rfl
        | true =>
          have e1 : (c :: cs).drop (k + 4) = cs.drop (3 + k) := by
            rw [show k + 4 = (3 + k) + 1 from by omega, List.drop_succ_cons]
          have hck : leadsWithCI closeTagL ((c :: cs).drop (k + 4)) = true := by
            rw [e1, ← List.drop_drop]
            exact hEq
          exact absurd ⟨by rw [List.drop_zero]; exact hOpen, hck, by omega⟩
            (hmini 0 (by omega) (k + 4))
      simp only [svgMatchL, hOpen, if_true, hnone]
      rw [hrec, hgoal]

/-! ### Helper lemmas for the claim theorems. -/

lemma leadsWith_append_left (p q l : List Char) (h : leadsWith (p ++ q) l = true) :
    leadsWith p l = true := by
  induction p generalizing l with
  | nil => rfl
  | cons x xs ih =>
    cases l with
    | nil => simp [leadsWith] at h
    | cons c cs =>
      simp only [List.cons_append, leadsWith, Bool.and_eq_true] at h ⊢
      exact ⟨h.1, ih cs h.2⟩

lemma containsSubL_append_left (p q l : List Char) (h : containsSubL (p ++ q) l = true) :
    containsSubL p l = true := by
  induction l with
  | nil =>
    simp only [containsSubL, List.isEmpty_iff, List.append_eq_nil] at h
    simp [containsSubL, List.isEmpty_iff, h.1]
  | cons c cs ih =>
    simp only [containsSubL, Bool.or_eq_true] at h ⊢
    rcases h with h | h
    · exact Or.inl (leadsWith_append_left p q _ h)
    · exact Or.inr (ih h)

lemma containsSub_429 {m : String} (h : containsSub "429 quota exceeded" m = true) :
    containsSub "429" m = true := by
  have e : ("429 quota exceeded" : String).data =
      ("429" : String).data ++ (" quota exceeded" : String).data := by decide
  unfold containsSub at h ⊢
  rw [e] at h
  exact containsSubL_append_left _ _ _ h

lemma reachable_slots {s : AppState} (h : Reachable s) :
    (s.currentSvg.isSome = true ↔ s.status = GenerationStatus.SUCCESS) ∧
    (s.error.isSome = true ↔ s.status = GenerationStatus.ERROR) := by
  induction h with
  | init => constructor <;> simp [initialState]
  | start s hr ih => constructor <;> simp [beginGenerate]
  | succeed s svg hr hst ih =>
    have hc : s.currentSvg = none := by
      rcases hcs : s.currentSvg with _ | v
      · rfl
      · have := ih.1.mp (by rw [hcs]; rfl)
        rw [hst] at this
        exact absurd this (by decide)
    have he : s.error = none := by
      rcases hes : s.error with _ | v
      · rfl
      · have := ih.2.mp (by rw [hes]; rfl)
        rw [hst] at this
        exact absurd this (by decide)
    constructor <;> simp [completeSuccess, hc, he]
  | fail s e hr hst ih =>
    have hc : s.currentSvg = none := by
      rcases hcs : s.currentSvg with _ | v
      · rfl
      · have := ih.1.mp (by rw [hcs]; rfl)
        rw [hst] at this
        exact absurd this (by decide)
    constructor <;> simp [completeFailure, hc]

/-! ### Claim theorems. -/

/-- C1: for every raw model reply containing a span that opens with a
case-insensitive svg start tag and later closes with the matching end tag,
`interpret` returns the first such span (earliest start, then nearest close,
i.e. the non-greedy first regex match) verbatim; and on the concrete reply
"noise <svg viewBox=..."... it returns exactly the svg span. -/
theorem interpret_returns_first_svg_span :
    (∀ (raw : String) (i j : ℕ), matchAt raw.data i j →
      (∀ i' < i, ∀ j', ¬ matchAt raw.data i' j') →
      (∀ j' < j, ¬ matchAt raw.data i j') →
      interpret raw = Except.ok (String.mk ((raw.data.drop i).take (j + 6 - i)))) ∧
    interpret "noise <svg viewBox=\"0 0 10 10\"><rect/></svg> trailing" =
      Except.ok "<svg viewBox=\"0 0 10 10\"><rect/></svg>" := by
  constructor
  · intro raw i j hm hmini hminj
    have h := svgMatchL_first i raw.data j hm hmini hminj
    simp [interpret, extractSvg, h]
  · rfl

/-- Witness for C1: the example reply matches at start 6 with the close tag
at 38, no earlier start or close admits a match, and the theorem applies. -/
theorem interpret_returns_first_svg_span_witness :
    matchAt ("noise <svg viewBox=\"0 0 10 10\"><rect/></svg> trailing" : String).data 6 38 ∧
    interpret "noise <svg viewBox=\"0 0 10 10\"><rect/></svg> trailing" =
      Except.ok (String.mk
        ((("noise <svg viewBox=\"0 0 10 10\"><rect/></svg> trailing" : String).data.drop 6).take
          (38 + 6 - 6))) := by
  refine ⟨by decide, ?_⟩
  apply interpret_returns_first_svg_span.1 _ 6 38 (by decide)
  · intro i' hi' j' hmj
    have hbd := matchAt_close_bound hmj
    have hlen : ("noise <svg viewBox=\"0 0 10 10\"><rect/></svg> trailing" : String).data.length
        = 53 := by decide
    exact (by decide :
      ∀ i' < 6, ∀ j' < 53,
        ¬ matchAt ("noise <svg viewBox=\"0 0 10 10\"><rect/></svg> trailing" : String).data i' j')
      i' hi' j' (by omega) hmj
  · intro j' hj' hmj
    exact (by decide :
      ∀ j' < 38,
        ¬ matchAt ("noise <svg viewBox=\"0 0 10 10\"><rect/></svg> trailing" : String).data 6 j')
      j' hj' hmj

/-- C2 counterexample: "Minimalist" is one of the 14 enumerated style
identifiers but has no entry in the instruction record, so the instruction
assembly returns the generic fallback rule instead of a style-specific
Goal string. -/
theorem style_goal_lookup_counterexample :
    "Minimalist" ∈ STYLES ∧ instructionFor "Minimalist" = none ∧
    getStyleInstructions "Minimalist" none = genericRule :=
  ⟨by decide, by decide, by decide⟩

/-- C2 amended: the instruction assembly returns the style-specific Goal
string for exactly 11 of the 14 enumerated styles; the enumerated styles
Minimalist, Gradient and Hand Drawn have no entry and receive the generic
fallback rule. -/
theorem style_goal_lookup_amended :
    (∀ s ∈ STYLES, getStyleInstructions s none = (instructionFor s).getD genericRule) ∧
    (∀ s ∈ STYLES, ((instructionFor s).isSome = true ↔
      s ∉ (["Minimalist", "Gradient", "Hand Drawn"] : List String))) ∧
    (∀ s : String, instructionFor s = none → getStyleInstructions s none = genericRule) := by
  refine ⟨fun s _ => rfl, by decide, ?_⟩
  intro s h
  show baseRule s = genericRule
  rw [baseRule, h]
  rfl

/-- Witness for C2 amended, instantiated at the styles Flat and Gradient. -/
theorem style_goal_lookup_amended_witness :
    getStyleInstructions "Flat" none = (instructionFor "Flat").getD genericRule ∧
    ((instructionFor "Flat").isSome = true ↔
      "Flat" ∉ (["Minimalist", "Gradient", "Hand Drawn"] : List String)) ∧
    getStyleInstructions "Gradient" none = genericRule :=
  ⟨style_goal_lookup_amended.1 "Flat" (by decide),
   style_goal_lookup_amended.2.1 "Flat" (by decide),
   style_goal_lookup_amended.2.2 "Gradient" (by decide)⟩

/-- C3: the temperature selection is a pure lookup — 0.15 for Vector Trace,
Blueprint, Pixel Art and Isometric; 0.3 for Flat, Material, Minimalist and
Low Poly; 0.6 for Hand Drawn, Gradient, Cyberpunk and Pop Art; 0.4 for
every other input string. -/
theorem temperature_lookup :
    getTemperatureForStyle "Vector Trace" = 0.15 ∧
    getTemperatureForStyle "Blueprint" = 0.15 ∧
    getTemperatureForStyle "Pixel Art" = 0.15 ∧
    getTemperatureForStyle "Isometric" = 0.15 ∧
    getTemperatureForStyle "Flat" = 0.3 ∧
    getTemperatureForStyle "Material" = 0.3 ∧
    getTemperatureForStyle "Minimalist" = 0.3 ∧
    getTemperatureForStyle "Low Poly" = 0.3 ∧
    getTemperatureForStyle "Hand Drawn" = 0.6 ∧
    getTemperatureForStyle "Gradient" = 0.6 ∧
    getTemperatureForStyle "Cyberpunk" = 0.6 ∧
    getTemperatureForStyle "Pop Art" = 0.6 ∧
    (∀ s : String,
      s ∉ (["Vector Trace", "Blueprint", "Pixel Art", "Isometric", "Flat", "Material",
        "Minimalist", "Low Poly", "Hand Drawn", "Gradient", "Cyberpunk", "Pop Art"] :
        List String) →
      getTemperatureForStyle s = 0.4) := by
  refine ⟨rfl, rfl, rfl, rfl, rfl, rfl, rfl, rfl, rfl, rfl, rfl, rfl, ?_⟩
  intro s hs
  simp only [List.mem_cons, List.not_mem_nil, or_false, not_or] at hs
  obtain ⟨h1, h2, h3, h4, h5, h6, h7, h8, h9, h10, h11, h12⟩ := hs
  simp [getTemperatureForStyle, h1, h2, h3, h4, h5, h6, h7, h8, h9, h10, h11, h12]

/-- Witness for C3 at the two styles the claim singles out as unmapped. -/
theorem temperature_lookup_witness :
    getTemperatureForStyle "Line Art" = 0.4 ∧ getTemperatureForStyle "Paper Cutout" = 0.4 :=
  ⟨temperature_lookup.2.2.2.2.2.2.2.2.2.2.2.2 "Line Art" (by decide),
   temperature_lookup.2.2.2.2.2.2.2.2.2.2.2.2 "Paper Cutout" (by decide)⟩

/-- C4: when the regex extraction finds no span and the fence-stripped text
does not contain both tag markers, `interpret` fails with the fixed format
error — fixed detail, fixed non-empty suggestion — and the already
classified error passes through the catch handler unchanged. -/
theorem interpret_format_error :
    (∀ raw : String,
      svgMatchL raw.data = none →
      ¬(containsSub "<svg" (stripFences raw) = true ∧
        containsSub "</svg>" (stripFences raw) = true) →
      interpret raw = Except.error noSvgError) ∧
    handleCatch noSvgError = noSvgError ∧
    noSvgError.details = "The model generated a response but no valid SVG code was found." ∧
    noSvgError.suggestion =
      some "Try simplifying your prompt or selecting the \x27Flat\x27 style which is more consistent." := by
  refine ⟨?_, rfl, rfl, rfl⟩
  intro raw h1 h2
  have hb : (containsSub "<svg" (stripFences raw) &&
      containsSub "</svg>" (stripFences raw)) = false := by
    cases hA : containsSub "<svg" (stripFences raw) <;>
      cases hB : containsSub "</svg>" (stripFences raw) <;> simp_all
  simp [interpret, extractSvg, h1, hb]
  rfl

/-- Witness for C4 at the reply "no markup here". -/
theorem interpret_format_error_witness :
    svgMatchL ("no markup here" : String).data = none ∧
    interpret "no markup here" = Except.error noSvgError :=
  ⟨by decide, interpret_format_error.1 "no markup here" (by decide) (by decide)⟩

/-- C5: for the two advanced styles with settings supplied, the instruction
text is the base rule followed by the settings block in the fixed order
complexity, colors, fill, stroke weight, line cap, where complexity and
colors appear only for Vector Trace, fill only for Line Art, stroke and cap
for both, and every emitted directive is non-empty while non-applicable
fields contribute no text at all. -/
theorem settings_block_order :
    ∀ ts : TraceSettings,
      getStyleInstructions "Vector Trace" (some ts) =
        baseRule "Vector Trace" ++ settingsBlockSpec "Vector Trace" ts ∧
      getStyleInstructions "Line Art" (some ts) =
        baseRule "Line Art" ++ settingsBlockSpec "Line Art" ts ∧
      0 < (complexityDirective ts.complexity).length ∧
      0 < (colorsDirective ts.colors).length ∧
      0 < (fillDirective ts.lineFill).length ∧
      0 < (strokeDirective ts.strokeWeight).length ∧
      0 < (capDirective ts.lineCap).length := by
  intro ts
  refine ⟨?_, ?_, ?_, ?_, ?_, ?_, ?_⟩
  · have hne : ¬(("Vector Trace" : String) = "Line Art") := by decide
    simp only [getStyleInstructions, settingsBlockSpec, hne, true_or, ite_true, ite_false,
      if_neg hne, if_true]
    apply String.ext
    simp [String.data_append, List.append_assoc, show ("" : String).data = [] from rfl]
  · have hne : ¬(("Line Art" : String) = "Vector Trace") := by decide
    simp only [getStyleInstructions, settingsBlockSpec, hne, or_true, ite_true, ite_false,
      if_neg hne, if_true]
    apply String.ext
    simp [String.data_append, List.append_assoc, show ("" : String).data = [] from rfl]
  · cases ts.complexity <;> decide
  · cases ts.colors <;> decide
  · cases ts.lineFill <;> decide
  · cases ts.strokeWeight <;> decide
  · cases ts.lineCap <;> decide

/-- C6 counterexample: with an image attached and the empty prompt, the
user instruction does not embed the empty prompt verbatim — the placeholder
text "Convert to SVG" is substituted instead. -/
theorem user_prompt_verbatim_counterexample :
    buildUserPrompt "" true "Flat" ≠ verbatimImagePrompt "" "Flat" ∧
    buildUserPrompt "" true "Flat" = verbatimImagePrompt "Convert to SVG" "Flat" :=
  ⟨by decide, by decide⟩

/-- C6 amended: exactly one template is used per request — the image
template when an image is present, the text-only template otherwise; the raw
prompt is embedded verbatim in the text-only template always and in the
image template whenever it is non-empty, while the empty prompt with an
image is replaced by the placeholder "Convert to SVG". -/
theorem user_prompt_templates_amended :
    ∀ (p style : String),
      buildUserPrompt p false style = verbatimTextPrompt p style ∧
      (p ≠ "" → buildUserPrompt p true style = verbatimImagePrompt p style) ∧
      buildUserPrompt "" true style = verbatimImagePrompt "Convert to SVG" style := by
  intro p style
  refine ⟨rfl, ?_, ?_⟩
  · intro hp
    simp [buildUserPrompt, verbatimImagePrompt, hp]
  · simp [buildUserPrompt, verbatimImagePrompt]

/-- Witness for C6 amended at a non-empty prompt with an image attached. -/
theorem user_prompt_templates_amended_witness :
    buildUserPrompt "a rocket" true "Flat" = verbatimImagePrompt "a rocket" "Flat" :=
  (user_prompt_templates_amended "a rocket" "Flat").2.1 (by decide)

/-- C7: starting a generation sets the status to LOADING and clears both
result slots, and in every reachable state the artifact slot is populated
exactly in SUCCESS, the error slot exactly in ERROR, and never both. -/
theorem lifecycle_invariant :
    (∀ s : AppState, beginGenerate s =
      { status := GenerationStatus.LOADING, currentSvg := none, error := none }) ∧
    (∀ s : AppState, Reachable s →
      (s.currentSvg.isSome = true ↔ s.status = GenerationStatus.SUCCESS) ∧
      (s.error.isSome = true ↔ s.status = GenerationStatus.ERROR) ∧
      ¬(s.currentSvg.isSome = true ∧ s.error.isSome = true)) := by
  refine ⟨fun s => rfl, fun s h => ?_⟩
  obtain ⟨h1, h2⟩ := reachable_slots h
  refine ⟨h1, h2, ?_⟩
  rintro ⟨hc, he⟩
  have := (h1.mp hc).symm.trans (h2.mp he)
  exact absurd this (by decide)

/-- Witness for C7 at the initial state. -/
theorem lifecycle_invariant_witness :
    beginGenerate initialState =
      { status := GenerationStatus.LOADING, currentSvg := none, error := none } ∧
    ((initialState.currentSvg.isSome = true ↔ initialState.status = GenerationStatus.SUCCESS) ∧
     (initialState.error.isSome = true ↔ initialState.status = GenerationStatus.ERROR) ∧
     ¬(initialState.currentSvg.isSome = true ∧ initialState.error.isSome = true)) :=
  ⟨lifecycle_invariant.1 initialState, lifecycle_invariant.2 initialState Reachable.init⟩

/-- C8: a submit event is a no-op — state unchanged, no request composed —
exactly when the trimmed prompt is empty with no image attached or the
status is already LOADING; in every other case `onGenerate` is invoked
exactly once with the trimmed prompt, the image, the style and the settings
argument for the two advanced styles. -/
theorem submit_guard :
    ∀ (input : String) (image : Option ImageData) (style : String) (ts : TraceSettings)
      (s : AppState),
      (((jsTrim input = "" ∧ image = none) ∨ s.status = GenerationStatus.LOADING) →
        submitEvent input image style ts s = (s, none)) ∧
      (¬((jsTrim input = "" ∧ image = none) ∨ s.status = GenerationStatus.LOADING) →
        submitEvent input image style ts s =
          (beginGenerate s,
            some { prompt := jsTrim input, image := image, style := style,
                   traceSettings :=
                     if style = "Vector Trace" ∨ style = "Line Art" then some ts
                     else none })) := by
  intro input image style ts s
  constructor
  · intro h
    have hno : ¬((jsTrim input ≠ "" ∨ image.isSome = true) ∧
        s.status ≠ GenerationStatus.LOADING) := by
      rcases h with ⟨hp, hi⟩ | hl
      · rintro ⟨hor, _⟩
        rcases hor with hne | hsome
        · exact hne hp
        · rw [hi] at hsome
          exact absurd hsome (by decide)
      · rintro ⟨_, hne⟩
        exact hne hl
    have hsub : handleSubmit input image style ts s.status = none := by
      rw [handleSubmit, if_neg hno]
    simp [submitEvent, hsub]
  · intro h
    have h1 : ¬(jsTrim input = "" ∧ image = none) := fun hc => h (Or.inl hc)
    have h2 : s.status ≠ GenerationStatus.LOADING := fun hc => h (Or.inr hc)
    have hor : jsTrim input ≠ "" ∨ image.isSome = true := by
      by_cases ht : jsTrim input = ""
      · rcases image with _ | img
        · exact (h1 ⟨ht, rfl⟩).elim
        · exact Or.inr rfl
      · exact Or.inl ht
    have hsub : handleSubmit input image style ts s.status =
        some { prompt := jsTrim input, image := image, style := style,
               traceSettings :=
                 if style = "Vector Trace" ∨ style = "Line Art" then some ts else none } := by
      rw [handleSubmit, if_pos (And.intro hor h2)]
    simp [submitEvent, hsub]

/-- Witness for C8: a whitespace-only prompt without an image is dropped,
and a non-empty prompt from the idle state issues exactly one request. -/
theorem submit_guard_witness :
    submitEvent "   " none "Flat"
      ⟨TraceComplexity.Medium, TraceColors.Limited, TraceStrokeWeight.Standard,
        TraceLineCap.Round, TraceLineFill.None⟩ initialState = (initialState, none) ∧
    submitEvent "draw a cat" none "Flat"
      ⟨TraceComplexity.Medium, TraceColors.Limited, TraceStrokeWeight.Standard,
        TraceLineCap.Round, TraceLineFill.None⟩ initialState =
      (beginGenerate initialState,
        some { prompt := jsTrim "draw a cat", image := none, style := "Flat",
               traceSettings :=
                 if "Flat" = "Vector Trace" ∨ "Flat" = "Line Art" then
                   some ⟨TraceComplexity.Medium, TraceColors.Limited,
                     TraceStrokeWeight.Standard, TraceLineCap.Round, TraceLineFill.None⟩
                 else none }) :=
  ⟨(submit_guard "   " none "Flat" _ initialState).1 (Or.inl ⟨by decide, rfl⟩),
   (submit_guard "draw a cat" none "Flat" _ initialState).2 (by decide)⟩

/-- C9 counterexample: an error without a suggestion whose lowercased
message contains "429 quota exceeded" is not always classified Overloaded —
the safety rule is checked first, so "Safety 429 quota exceeded" classifies
as Content Flagged. -/
theorem overloaded_classification_counterexample :
    containsSub "429 quota exceeded" (toLowerStr "Safety 429 quota exceeded") = true ∧
    (handleCatch { message := "Safety 429 quota exceeded", details := "", suggestion := none }).message = "Content Flagged" ∧
    (handleCatch { message := "Safety 429 quota exceeded", details := "", suggestion := none }).message ≠ "System Overloaded" :=
  ⟨by decide, by decide, by decide⟩

/-- C9 amended: an error that carries no suggestion, whose lowercased
message contains "429 quota exceeded" and matches no earlier rule (no
"safety", no "blocked"), surfaces as the fixed System Overloaded error with
the fixed overloaded suggestion. -/
theorem overloaded_classification_amended :
    ∀ (msg details : String),
      containsSub "429 quota exceeded" (toLowerStr msg) = true →
      containsSub "safety" (toLowerStr msg) = false →
      containsSub "blocked" (toLowerStr msg) = false →
      handleCatch { message := msg, details := details, suggestion := none } =
        { message := "System Overloaded",
          details := "API quota exceeded or system is currently busy.",
          suggestion := some "Please wait a minute before trying again." } := by
  intro msg details h429 hsafety hblocked
  have h429' : containsSub "429" (toLowerStr msg) = true := containsSub_429 h429
  simp [handleCatch, classifyServiceError, hsafety, hblocked, h429']

/-- Witness for C9 amended at the message "429 quota exceeded". -/
theorem overloaded_classification_amended_witness :
    handleCatch { message := "429 quota exceeded", details := "", suggestion := none } =
      { message := "System Overloaded",
        details := "API quota exceeded or system is currently busy.",
        suggestion := some "Please wait a minute before trying again." } :=
  overloaded_classification_amended "429 quota exceeded" "" (by decide) (by decide) (by decide)

/-- C10: a successful generation with the empty prompt stores a placeholder
in the artifact's prompt field — "Image to SVG Conversion" with an image
attached, "Generated SVG" without. -/
theorem artifact_prompt_placeholder :
    ∀ (id svgContent : String) (t : ℕ),
      (mkGeneratedSvg id svgContent "" true t).prompt = "Image to SVG Conversion" ∧
      (mkGeneratedSvg id svgContent "" false t).prompt = "Generated SVG" :=
  fun _ _ _ => ⟨rfl, rfl⟩

end SvgGen
